import Mathlib

/-!
# Verification of the per-tab insight-generation pipeline

A shallow embedding of the core pipeline of the research-synthesis dashboard
(`insights_utils.py`, plus the trigger wiring in `vaping_dashboard.py`):

* Python string primitives, modelled on `List Char` (a Python `str` is a
  sequence of code points, so `List Char` is an exact match);
* the bullet-point response parser of `generate_insights_with_gpt4o`
  (insights_utils.py lines 179-194);
* the document extractor `extract_research_insights_from_docs`
  (insights_utils.py lines 13-78), over an explicit table model;
* the LLM insight client `generate_insights_with_gpt4o` (lines 81-199),
  with the network call abstracted as an oracle;
* the `lru_cache(maxsize=32)` memoisation of `cached_generate_insights`
  (lines 202-211);
* the tab-progress controller `display_insights` (lines 214-437), with an
  explicit clock (in seconds, as a rational) for the throttle and sleeps.

The LLM call itself takes zero model time; `time.sleep` advances the clock by
the slept amount.  All definitions are executable.
-/

/-! ## Python string primitives on code-point lists -/

/-- Whether `s` begins with `pat` — `s` begins with `pat` (Python `str.startswith` on
code-point lists). -/
def listStartsWith (s pat : List Char) : Bool :=
  match pat, s with
  | [], _ => true
  | _ :: _, [] => false
  | p :: ps, c :: cs => p == c && listStartsWith cs ps

/-- Whether `pat` occurs contiguously in `s` — `pat` occurs contiguously in `s` (Python `in` on
strings). -/
def occursIn (pat s : List Char) : Bool :=
  match s with
  | [] => pat.isEmpty
  | _ :: rest => listStartsWith s pat || occursIn pat rest

/-- Python `pat in s` for strings.  Also models pandas
`str.contains(pat, na=False)` on non-NaN cells; pandas actually interprets the
pattern as a regular expression, but no claim in this development depends on a
pattern that exercises a metacharacter, so plain substring containment is used. -/
def strContains (s pat : String) : Bool := occursIn pat.data s.data

/-- One step bound for `pyReplace`: fuel-indexed so that the kernel can
evaluate it.  `replaceListAux pat rep fuel s` replaces every non-overlapping
occurrence of `pat` in `s` by `rep`, left to right, exactly as Python
`str.replace` does, provided `fuel ≥ s.length`. -/
def replaceListAux (pat rep : List Char) : Nat → List Char → List Char
  | 0, s => s
  | _ + 1, [] => []
  | fuel + 1, c :: rest =>
    if pat ≠ [] ∧ listStartsWith (c :: rest) pat then
      rep ++ replaceListAux pat rep fuel (rest.drop (pat.length - 1))
    else
      c :: replaceListAux pat rep fuel rest

/-- Python `s.replace(pat, rep)` (all non-overlapping occurrences, left to
right).  The `pat = ""` edge case of Python (interleaving `rep` everywhere)
is not modelled; every call site in the source uses a non-empty pattern. -/
def pyReplace (s pat rep : String) : String :=
  String.mk (replaceListAux pat.data rep.data s.data.length s.data)

/-- Python `s.strip()`: remove leading and trailing whitespace. -/
def pyStrip (s : String) : String :=
  String.mk (((s.data.dropWhile Char.isWhitespace).reverse.dropWhile
    Char.isWhitespace).reverse)

/-- Python `s.startswith(pat)`. -/
def pyStartsWith (s pat : String) : Bool := listStartsWith s.data pat.data

/-- Python `s.lower()`. -/
def pyLower (s : String) : String := String.mk (s.data.map Char.toLower)

/-- Helper for `pySplit`: accumulate the current chunk (reversed). -/
def splitCharAux (d : Char) : List Char → List Char → List (List Char)
  | acc, [] => [acc.reverse]
  | acc, c :: rest =>
    if c == d then acc.reverse :: splitCharAux d [] rest
    else splitCharAux d (c :: acc) rest

/-- Python `s.split(d)` for a single-character separator. -/
def pySplit (s : String) (d : Char) : List String :=
  (splitCharAux d [] s.data).map String.mk

/-! ## Token usage records and the bullet-point parser -/

/-- Token usage record returned alongside a completion
(insights_utils.py lines 169-173). -/
structure TokenUsage where
  prompt_tokens : Nat
  completion_tokens : Nat
  total_tokens : Nat
deriving DecidableEq

/-- The zero usage record `{"prompt_tokens": 0, "completion_tokens": 0,
"total_tokens": 0}` used on the no-data and error paths. -/
def zero_usage : TokenUsage := ⟨0, 0, 0⟩

/-- The loop of insights_utils.py lines 179-190: walk the split lines,
opening a new bullet on a line that (after stripping) starts with the glyph,
appending other non-empty lines to the previous bullet. -/
def parse_bullet_lines : List String → List String → List String
  | acc, [] => acc
  | acc, rawLine :: rest =>
    let line := pyStrip rawLine
    if line ≠ "" ∧ pyStartsWith line "•" then
      parse_bullet_lines (acc ++ [pyReplace line " • " ": "]) rest
    else if line ≠ "" ∧ acc ≠ [] then
      parse_bullet_lines (acc.dropLast ++ [acc.getLast! ++ " " ++ pyReplace line "•" ""]) rest
    else
      parse_bullet_lines acc rest

/-- The response parser of `generate_insights_with_gpt4o`
(insights_utils.py lines 179-194), including the fallback of lines 193-194
when no glyph-marked bullet was recognised. -/
def parse_bullet_points (insights_text : String) : List String :=
  let bullet_points := parse_bullet_lines [] (pySplit insights_text '\n')
  if bullet_points = [] then
    (pySplit insights_text '\n').filterMap (fun line =>
      if pyStrip line ≠ "" then some (pyReplace (pyStrip line) "•" "") else none)
  else bullet_points

/-! ## The coded fact table and the document extractor

`extract_research_insights_from_docs` (insights_utils.py lines 13-78) reads a
dataframe with columns `Main Category`, `Category`, `SubCategory` and one
column per study document.  A cell is either a string or NaN; `Option String`
models that (`none` = NaN/missing).  `hasSubCategory` models
`'SubCategory' in df.columns`. -/

/-- One dataframe row: the three fixed leading columns plus the document
cells, addressed by column name. -/
structure Row where
  mainCategory : Option String
  category : Option String
  subCategory : Option String
  cells : String → Option String

/-- The coded fact table. -/
structure DataFrame where
  rows : List Row
  hasSubCategory : Bool

/-- A category schema: group label to ordered list of attribute keys
(`categories_to_extract`). -/
abbrev Schema := List (String × List String)

/-- Attribute-key to value-list mapping (`category_insights`). -/
abbrev AttrMap := List (String × List String)

/-- Group-label to attribute mapping (`doc_insights`). -/
abbrev GroupMap := List (String × AttrMap)

/-- The extractor's output (`insights`): document identifier to groups. -/
abbrev Bundle := List (String × GroupMap)

/-- Python `dict` assignment `d[k] = v` on an insertion-ordered association
list: overwrite in place if the key exists, else append. -/
def dict_insert {κ ν : Type} [BEq κ] (l : List (κ × ν)) (k : κ) (v : ν) :
    List (κ × ν) :=
  if l.any (fun p => p.1 == k) then
    l.map (fun p => if p.1 == k then (k, v) else p)
  else l ++ [(k, v)]

/-- Python `d.get(k)` / `d[k]` lookup on an association list. -/
def dict_get {κ ν : Type} [BEq κ] (l : List (κ × ν)) (k : κ) : Option ν :=
  (l.find? (fun p => p.1 == k)).map Prod.snd

/-- Row selection for one attribute key (insights_utils.py lines 50-62):
exact match on `Category`; else substring match on `Category`
(`na=False`); else, when the table has a `SubCategory` column, exact then
substring match on `SubCategory`. -/
def find_subcategory_rows (df : DataFrame) (subcategory : String) : List Row :=
  let exact := df.rows.filter (fun r => r.category == some subcategory)
  let byCat :=
    if exact.isEmpty then
      df.rows.filter (fun r =>
        match r.category with
        | some c => strContains c subcategory
        | none => false)
    else exact
  if byCat.isEmpty && df.hasSubCategory then
    let subExact := df.rows.filter (fun r => r.subCategory == some subcategory)
    if subExact.isEmpty then
      df.rows.filter (fun r =>
        match r.subCategory with
        | some c => strContains c subcategory
        | none => false)
    else subExact
  else byCat

/-- Display identifier of a document (insights_utils.py lines 34-43):
first row with `Main Category = "meta_data"` and `Category = "title"`, else —
only when no such row exists at all — first row with `Category = "title"`;
fall back to the raw column key when the looked-up cell is NaN or the empty
string (Python truthiness of `title`). -/
def doc_identifier (df : DataFrame) (doc_col : String) : String :=
  let metaTitle := (df.rows.filter (fun r =>
    r.mainCategory == some "meta_data" && r.category == some "title")).head?
  let title : Option (Option String) :=
    match metaTitle with
    | some r => some (r.cells doc_col)
    | none =>
      match (df.rows.filter (fun r => r.category == some "title")).head? with
      | some r => some (r.cells doc_col)
      | none => none
  match title with
  | some (some t) => if t = "" then doc_col else t
  | _ => doc_col

/-- Inner loop over one group's attribute keys (insights_utils.py lines
49-68): for each key, select rows, take the document's cells with NaN
dropped (`dropna().tolist()`), and store the list when it is non-empty and
at least one entry is non-blank.  Blank entries are *not* removed. -/
def category_insights_for (df : DataFrame) (doc_col : String) :
    List String → AttrMap → AttrMap
  | [], acc => acc
  | subcategory :: rest, acc =>
    let rows := find_subcategory_rows df subcategory
    let acc' :=
      if !rows.isEmpty then
        let subcategory_data := rows.filterMap (fun r => r.cells doc_col)
        if subcategory_data ≠ [] ∧
            subcategory_data.any (fun item => pyStrip item ≠ "") then
          dict_insert acc subcategory subcategory_data
        else acc
      else acc
    category_insights_for df doc_col rest acc'

/-- Middle loop over the schema's groups (insights_utils.py lines 46-72):
a group is kept only when it collected at least one attribute. -/
def doc_insights_for (df : DataFrame) (doc_col : String) :
    Schema → GroupMap → GroupMap
  | [], acc => acc
  | (main_category, subcategories) :: rest, acc =>
    let category_insights := category_insights_for df doc_col subcategories []
    let acc' :=
      if category_insights ≠ [] then dict_insert acc main_category category_insights
      else acc
    doc_insights_for df doc_col rest acc'

/-- Outer loop over the matching documents (insights_utils.py lines 30-76):
a document is kept only when it collected at least one group. -/
def extract_docs_loop (df : DataFrame) (categories_to_extract : Schema) :
    List String → Bundle → Bundle
  | [], acc => acc
  | doc_col :: rest, acc =>
    let doc_insights := doc_insights_for df doc_col categories_to_extract []
    let acc' :=
      if doc_insights ≠ [] then
        dict_insert acc (doc_identifier df doc_col) doc_insights
      else acc
    extract_docs_loop df categories_to_extract rest acc'

/-- The extractor `extract_research_insights_from_docs` (insights_utils.py lines 13-78). -/
def extract_research_insights_from_docs (df : DataFrame)
    (matching_docs : List String) (categories_to_extract : Schema) : Bundle :=
  extract_docs_loop df categories_to_extract matching_docs []

section ExtractExamples

/-- A two-row table whose `main_conclusions` attribute holds a blank and a
non-blank cell for document `DocA`. -/
def exampleDf : DataFrame :=
  { rows := [
      { mainCategory := some "x", category := some "main_conclusions",
        subCategory := none,
        cells := fun c => if c = "DocA" then some "" else none },
      { mainCategory := some "x", category := some "main_conclusions",
        subCategory := none,
        cells := fun c => if c = "DocA" then some "x" else none }],
    hasSubCategory := false }

end ExtractExamples



/-! ## The LLM insight client

The network call of `generate_insights_with_gpt4o` (insights_utils.py lines
98-176) is abstracted as an oracle: given the request-determining data (the
fact bundle the prompt is rendered from, the credential, the topic name, the
focus prompt), it returns either the raw response text with its usage
counters, or the message of a raised exception.  The `try` block of lines
97-196 catches every exception and converts it on line 199. -/

/-- The completion endpoint: `.error msg` models an exception whose
`str(e)` is `msg`. -/
def Oracle : Type :=
  Bundle → String → String → Option String → Except String (String × TokenUsage)

/-- The client `generate_insights_with_gpt4o` (insights_utils.py lines 81-199):
short-circuit on an empty bundle (lines 94-95); otherwise call the endpoint
and parse the bullets (lines 97-196); any exception becomes a single error
bullet with zero usage (lines 198-199). -/
def generate_insights_with_gpt4o (oracle : Oracle) (insights_data : Bundle)
    (api_key : String) (topic_name : String)
    (custom_focus_prompt : Option String) : List String × TokenUsage :=
  if insights_data = [] then
    (["No " ++ pyLower topic_name ++ " insights found in the filtered documents."],
      zero_usage)
  else
    match oracle insights_data api_key topic_name custom_focus_prompt with
    | .ok (insights_text, token_usage) =>
        (parse_bullet_points insights_text, token_usage)
    | .error e =>
        (["Error generating " ++ pyLower topic_name ++ " insights: " ++ e],
          zero_usage)

/-! ## Bundle serialisation (`json.dumps`)

`display_insights` serialises the extracted bundle with `json.dumps` before
using it as part of the cache key (insights_utils.py lines 267-269).  The
encoder below mirrors `json.dumps` on these string-keyed nested dicts
(default separators); escaping makes it injective, so a serialised string
determines its bundle, as in Python where `json.loads` inverts it. -/

/-- JSON string escaping for the characters that can occur here. -/
def json_escape_char (c : Char) : List Char :=
  if c = '"' then ['\\', '"']
  else if c = '\\' then ['\\', '\\']
  else if c = '\n' then ['\\', 'n']
  else [c]

/-- A JSON string literal. -/
def json_str (s : String) : String :=
  String.mk ('"' :: (s.data.map json_escape_char).flatten ++ ['"'])

/-- Comma-separated joining. -/
def str_intercalate (sep : String) : List String → String
  | [] => ""
  | [x] => x
  | x :: rest => x ++ sep ++ str_intercalate sep rest

/-- A JSON array of strings. -/
def json_of_values (l : List String) : String :=
  "[" ++ str_intercalate ", " (l.map json_str) ++ "]"

/-- A JSON object mapping attribute keys to value arrays. -/
def json_of_attrs (m : AttrMap) : String :=
  "\x7b" ++ str_intercalate ", "
    (m.map (fun p => json_str p.1 ++ ": " ++ json_of_values p.2)) ++ "\x7d"

/-- A JSON object mapping group labels to attribute objects. -/
def json_of_groups (m : GroupMap) : String :=
  "\x7b" ++ str_intercalate ", "
    (m.map (fun p => json_str p.1 ++ ": " ++ json_of_attrs p.2)) ++ "\x7d"

/-- Python `json.dumps` of a fact bundle. -/
def json_dumps (b : Bundle) : String :=
  "\x7b" ++ str_intercalate ", "
    (b.map (fun p => json_str p.1 ++ ": " ++ json_of_groups p.2)) ++ "\x7d"

/-! ## The insight cache (`functools.lru_cache(maxsize=32)`)

`cached_generate_insights` (insights_utils.py lines 202-211) memoises the
call on the exact 4-tuple of arguments.  The cache is modelled as a
most-recent-first association list; a hit moves the entry to the front, a
miss inserts at the front, evicting the last (least recently used) entry
when the cache is full. -/

/-- The memoisation key: the exact 4-tuple of arguments of
`cached_generate_insights`. -/
structure CacheKey where
  insights_data_str : String
  api_key : String
  topic_name : String
  custom_focus_prompt : Option String
deriving DecidableEq

/-- A cache entry's value: the bullets and the usage record. -/
abbrev GenResult := List String × TokenUsage

/-- The cache contents, most recently used first. -/
abbrev Cache := List (CacheKey × GenResult)

/-- The bound `maxsize=32` (insights_utils.py line 203). -/
def lru_maxsize : Nat := 32

/-- Cache lookup. -/
def lru_lookup (entries : Cache) (k : CacheKey) : Option GenResult :=
  (entries.find? (fun p => p.1 == k)).map Prod.snd

/-- Move a hit entry to the most-recent position. -/
def lru_touch (entries : Cache) (k : CacheKey) (v : GenResult) : Cache :=
  (k, v) :: entries.filter (fun p => !(p.1 == k))

/-- Insert a fresh entry, evicting the least recently used when full. -/
def lru_insert (entries : Cache) (k : CacheKey) (v : GenResult) : Cache :=
  (k, v) :: (if lru_maxsize ≤ entries.length then entries.dropLast else entries)

/-- The memoised `cached_generate_insights` (insights_utils.py lines 202-211) as a state
transformer: `f` is the underlying computation
(`json.loads` followed by `generate_insights_with_gpt4o`); the `Nat` counts
how many underlying invocations the call performed (0 on a hit, 1 on a
miss). -/
def cached_generate_insights (f : CacheKey → GenResult) (entries : Cache)
    (k : CacheKey) : GenResult × Cache × Nat :=
  match lru_lookup entries k with
  | some v => (v, lru_touch entries k v, 0)
  | none => (f k, lru_insert entries k (f k), 1)

/-! ## Session state and the tab progress controller -/

/-- The eight topic tab names (insights_utils.py lines 10-11). -/
def tab_names : List String :=
  ["Overview", "Adverse Events", "Perceived Benefits", "Health Outcomes",
   "Research Trends", "Contradictions & Conflicts", "Bias in Research",
   "Publication Level"]

/-- Python `set.add` on an insertion-ordered list model of a set. -/
def set_add (l : List Int) (x : Int) : List Int :=
  if x ∈ l then l else l ++ [x]

/-- The `st.session_state` fields the pipeline reads or writes.  `store` and
`usage_store` hold the `generated_*_insights` and `*_token_usage` keys;
`last_api_call = none` models the key being absent. -/
structure SessionState where
  openai_api_key : String
  insights_in_progress : Bool
  current_processing_tab : Int
  completed_tabs : List Int
  progress_status : List (Int × String)
  current_tab_index : Int
  store : List (String × List String)
  usage_store : List (String × TokenUsage)
  last_api_call : Option ℚ

/-- The focus prompt for the respiratory sub-topic (insights_utils.py lines
286-297).  The interior run-of-spaces indentation of the Python triple-quoted
literal is not reproduced character for character; the text is.  The string
only ever acts as an opaque cache-key component. -/
def respiratory_prompt : String :=
  "As an R&D specialist analyzing e-cigarette research on respiratory health, focus exclusively on specific product parameters and ingredients that impact respiratory health outcomes.\n" ++
  "Avoid general statements about respiratory health and instead extract precise technical information that can directly improve product safety profiles.\n\n" ++
  "Emphasize:\n" ++
  "1. Specific aerosol particle sizes from different device types and their measured deposition patterns\n" ++
  "2. Exact chemical compounds at specific concentrations linked to respiratory irritation\n" ++
  "3. Precise temperature/power settings associated with reduced respiratory effects (with numerical values)\n" ++
  "4. Particular e-liquid formulations showing improved respiratory safety profiles (with measured data)\n" ++
  "5. Specific device design elements that demonstrably filter or reduce harmful respiratory exposures\n" ++
  "6. Comparative respiratory biomarker data between specific product designs (with exact measurements)\n\n" ++
  "Include specific quantitative data on aerosol physics, chemical composition, and physiological responses whenever available."

/-- The respiratory sub-topic schema (insights_utils.py lines 300-332). -/
def respiratory_categories : Schema :=
  [("Health Outcomes",
    ["respiratory_effects.measured_outcomes",
     "respiratory_effects.findings.description",
     "respiratory_effects.findings.comparative_results",
     "respiratory_effects.specific_conditions.asthma",
     "respiratory_effects.specific_conditions.copd",
     "respiratory_effects.specific_conditions.wheezing",
     "respiratory_effects.specific_conditions.other_conditions",
     "respiratory_effects.biomarkers",
     "respiratory_effects.lung_function_tests.tests_performed",
     "respiratory_effects.lung_function_tests.results"]),
   ("Self-Reported Effects",
    ["adverse_events.respiratory_events.breathing_difficulties.overall_percentage",
     "adverse_events.respiratory_events.breathing_difficulties.group_percentages",
     "adverse_events.respiratory_events.chest_pain.overall_percentage",
     "adverse_events.respiratory_events.chest_pain.group_percentages",
     "adverse_events.respiratory_events.other_respiratory_events",
     "adverse_events.oral_events.cough.overall_percentage",
     "adverse_events.oral_events.cough.time_course"]),
   ("Causal Mechanisms",
    ["chemicals_implicated.name",
     "chemicals_implicated.effects",
     "biological_pathways.pathway",
     "biological_pathways.description"]),
   ("Key Findings",
    ["main_conclusions",
     "novel_findings"])]

/-- The focus prompt for the cardiovascular sub-topic (insights_utils.py
lines 345-356); same indentation caveat as `respiratory_prompt`. -/
def cardiovascular_prompt : String :=
  "As an R&D specialist analyzing e-cigarette research on cardiovascular health, focus exclusively on specific product parameters and ingredients that impact cardiovascular health metrics.\n" ++
  "Avoid general statements about cardiovascular risks and instead extract precise technical information that can directly inform product design and formulation.\n\n" ++
  "Emphasize:\n" ++
  "1. Specific nicotine delivery patterns and their measured effects on heart rate/blood pressure (with exact values)\n" ++
  "2. Exact chemical constituents linked to vascular effects with their concentrations\n" ++
  "3. Precise operating parameters associated with minimized cardiovascular impact (with numerical data)\n" ++
  "4. Particular device design elements showing improved cardiovascular safety profiles\n" ++
  "5. Specific e-liquid formulations with measured reduced impact on endothelial function\n" ++
  "6. Comparative cardiac biomarker data between specific product types (with exact measurements)\n\n" ++
  "Include exact measurements, concentration ranges, and physiological response data whenever available."

/-- The cardiovascular sub-topic schema (insights_utils.py lines 359-383). -/
def cardiovascular_categories : Schema :=
  [("Health Outcomes",
    ["cardiovascular_effects.measured_outcomes",
     "cardiovascular_effects.findings.description",
     "cardiovascular_effects.findings.comparative_results",
     "cardiovascular_effects.blood_pressure",
     "cardiovascular_effects.heart_rate",
     "cardiovascular_effects.biomarkers"]),
   ("Self-Reported Effects",
    ["adverse_events.cardiovascular_events.heart_palpitation.overall_percentage",
     "adverse_events.cardiovascular_events.heart_palpitation.group_percentages",
     "adverse_events.cardiovascular_events.other_cardiovascular_events"]),
   ("Causal Mechanisms",
    ["chemicals_implicated.name",
     "chemicals_implicated.effects",
     "biological_pathways.pathway",
     "biological_pathways.description"]),
   ("Key Findings",
    ["main_conclusions",
     "novel_findings"])]

/-- One recorded generation call through `cached_generate_insights` inside a
controller cycle: the clock value at which the call starts, the topic it is
for, and whether it reached the network (cache miss). -/
structure CallEvent where
  time : ℚ
  topic_name : String
  is_llm_call : Bool
deriving DecidableEq

/-- Outcome of the main per-topic generation step (insights_utils.py lines
252-272): the bullets and usage, the updated cache and clock, the updated
`last_api_call`, and the recorded call events. -/
structure GenStep where
  insights : List String
  token_usage : TokenUsage
  cache : Cache
  clock : ℚ
  last_api_call : Option ℚ
  events : List CallEvent

/-- Lines 255-272 of insights_utils.py: if the extraction is empty, a fixed
message with zero usage and no call; otherwise sleep per the throttle (lines
260-264), issue the cached call (line 269) and set `last_api_call` to the
post-call time (line 272).  The call itself takes zero model time, so the
call start, call end and `last_api_call` coincide at `now + wait`. -/
def insights_gen_step (oracle : Oracle) (research_insights : Bundle)
    (api_key topic_name : String) (custom_focus_prompt : Option String)
    (enable_throttling : Bool) (cache : Cache) (now : ℚ)
    (last : Option ℚ) : GenStep :=
  if research_insights = [] then
    { insights := ["No " ++ pyLower topic_name ++
        " insights found in the filtered documents."],
      token_usage := zero_usage, cache := cache, clock := now,
      last_api_call := last, events := [] }
  else
    let wait : ℚ :=
      match enable_throttling, last with
      | true, some last_call =>
        if now - last_call < 1 then 1 - (now - last_call) else 0
      | _, _ => 0
    let t := now + wait
    let k : CacheKey :=
      ⟨json_dumps research_insights, api_key, topic_name, custom_focus_prompt⟩
    let r := cached_generate_insights
      (fun _ => generate_insights_with_gpt4o oracle research_insights api_key
        topic_name custom_focus_prompt) cache k
    { insights := r.1.1, token_usage := r.1.2, cache := r.2.1, clock := t,
      last_api_call := some t, events := [⟨t, topic_name, r.2.2 == 1⟩] }

/-- Outcome of one health sub-topic generation (insights_utils.py lines
334-342 and 385-393). -/
structure SubStep where
  results : List String
  token_usage : TokenUsage
  cache : Cache
  events : List CallEvent

/-- One health sub-topic generation: when the sub-extraction is non-empty,
a cached call with the sub-topic's own name and focus prompt — with no
throttle and no `last_api_call` update; when empty, a fixed message and zero
usage with no call. -/
def health_sub_step (oracle : Oracle) (sub_insights : Bundle)
    (api_key topic_name focus_prompt no_data_msg : String) (cache : Cache)
    (t : ℚ) : SubStep :=
  if sub_insights ≠ [] then
    let k : CacheKey :=
      ⟨json_dumps sub_insights, api_key, topic_name, some focus_prompt⟩
    let r := cached_generate_insights
      (fun _ => generate_insights_with_gpt4o oracle sub_insights api_key
        topic_name (some focus_prompt)) cache k
    { results := r.1.1, token_usage := r.1.2, cache := r.2.1,
      events := [⟨t, topic_name, r.2.2 == 1⟩] }
  else
    { results := [no_data_msg], token_usage := zero_usage, cache := cache,
      events := [] }

/-- Result of the Health Outcomes special-case block (insights_utils.py
lines 279-393). -/
structure HealthBlock where
  store : List (String × List String)
  usage_store : List (String × TokenUsage)
  cache : Cache
  events : List CallEvent
  gen_log : List String

/-- Result of one `display_insights` call: the updated session state, cache
and clock, the generation calls made, the result-set keys stored in order,
and which tab index the call processed (if any). -/
structure CycleResult where
  session : SessionState
  cache : Cache
  clock : ℚ
  events : List CallEvent
  gen_log : List String
  processed : Option Int

/-- The session-state key a topic's bullets are stored under
(insights_utils.py line 238). -/
def insights_store_key (topic_name : String) : String :=
  "generated_" ++
    pyReplace (pyReplace (pyLower topic_name) " & " "_") " " "_" ++ "_insights"

/-- The controller `display_insights` (insights_utils.py lines 214-437).

* empty `matching_docs`: warn and return before any state is read or
  written (lines 226-228);
* not the current processing tab (lines 439-480): pure display, no state
  change;
* current processing tab (lines 249-425): extract, generate (throttled,
  cached), store results under the topic's normalised key, run the Health
  Outcomes sub-topic block when `tab_index == 3` and the topic name contains
  "Oral Health", mark the tab completed, advance (or finish after the last
  tab), sleep 0.5 s and rerun.

The two assignment branches of lines 413-420 are written field-wise with the
shared condition `tab_index < len(tab_names) - 1`.  The `except` branch of
lines 427-437 is unreachable in the model: every operation in the modelled
`try` body is total (the client already converts endpoint exceptions into an
error result on lines 198-199). -/
def display_insights (oracle : Oracle) (df : DataFrame)
    (matching_docs : List String) (topic_name : String)
    (categories_to_extract : Schema) (custom_focus_prompt : Option String)
    (enable_throttling : Bool) (tab_index : Int) (session : SessionState)
    (cache : Cache) (now : ℚ) : CycleResult :=
  if matching_docs = [] then
    ⟨session, cache, now, [], [], none⟩
  else
    let api_key := session.openai_api_key
    let insights_key := insights_store_key topic_name
    let token_usage_key := insights_key ++ "_token_usage"
    if session.insights_in_progress = true ∧
        tab_index = session.current_processing_tab ∧
        tab_index ∉ session.completed_tabs then
      let research_insights :=
        extract_research_insights_from_docs df matching_docs categories_to_extract
      let g := insights_gen_step oracle research_insights api_key topic_name
        custom_focus_prompt enable_throttling cache now session.last_api_call
      let store₁ := dict_insert session.store insights_key g.insights
      let usage₁ := dict_insert session.usage_store token_usage_key g.token_usage
      let health : HealthBlock :=
        if tab_index == 3 && strContains topic_name "Oral Health" then
          let store_o := dict_insert store₁ "generated_oral_health_insights" g.insights
          let usage_o := dict_insert usage₁
            "generated_oral_health_insights_token_usage" g.token_usage
          let respiratory_insights := extract_research_insights_from_docs df
            matching_docs respiratory_categories
          let r := health_sub_step oracle respiratory_insights api_key
            "Respiratory Health" respiratory_prompt
            "No respiratory health insights found in the filtered documents."
            g.cache g.clock
          let store_r := dict_insert store_o
            "generated_respiratory_health_insights" r.results
          let usage_r := dict_insert usage_o
            "generated_respiratory_health_insights_token_usage" r.token_usage
          let cardiovascular_insights := extract_research_insights_from_docs df
            matching_docs cardiovascular_categories
          let c := health_sub_step oracle cardiovascular_insights api_key
            "Cardiovascular Health" cardiovascular_prompt
            "No cardiovascular health insights found in the filtered documents."
            r.cache g.clock
          let store_c := dict_insert store_r
            "generated_cardiovascular_health_insights" c.results
          let usage_c := dict_insert usage_r
            "generated_cardiovascular_health_insights_token_usage" c.token_usage
          ⟨store_c, usage_c, c.cache, r.events ++ c.events,
            ["generated_oral_health_insights",
             "generated_respiratory_health_insights",
             "generated_cardiovascular_health_insights"]⟩
        else ⟨store₁, usage₁, g.cache, [], []⟩
      let advance := tab_index < (tab_names.length : Int) - 1
      let session' : SessionState :=
        { session with
            store := health.store,
            usage_store := health.usage_store,
            last_api_call := g.last_api_call,
            completed_tabs := set_add session.completed_tabs tab_index,
            progress_status := dict_insert session.progress_status tab_index "completed",
            insights_in_progress :=
              if advance then session.insights_in_progress else false,
            current_processing_tab := if advance then tab_index + 1 else -1,
            current_tab_index := if advance then tab_index + 1 else -1 }
      ⟨session', health.cache, g.clock + 1/2, g.events ++ health.events,
        insights_key :: health.gen_log, some tab_index⟩
    else
      ⟨session, cache, now, [], [], none⟩

/-! ## The reactive-run harness and the operator trigger -/

/-- The per-tab arguments the dashboard page supplies to `display_insights`
on one reactive cycle. -/
structure CycleArgs where
  df : DataFrame
  matching_docs : List String
  topic_name : String
  categories_to_extract : Schema
  custom_focus_prompt : Option String
  enable_throttling : Bool

/-- One reactive cycle: the page calls `display_insights` for the
then-current processing tab with that tab's arguments. -/
def run_cycle (oracle : Oracle) (args : Int → CycleArgs)
    (session : SessionState) (cache : Cache) (now : ℚ) : CycleResult :=
  let t := session.current_processing_tab
  let a := args t
  display_insights oracle a.df a.matching_docs a.topic_name
    a.categories_to_extract a.custom_focus_prompt a.enable_throttling t
    session cache now

/-- Accumulated outcome of a number of reactive cycles. -/
structure RunResult where
  session : SessionState
  cache : Cache
  clock : ℚ
  processed_log : List Int

/-- Run `n` successive reactive cycles, logging which tab index each cycle
processed. -/
def run_cycles (oracle : Oracle) (args : Int → CycleArgs) :
    Nat → SessionState → Cache → ℚ → RunResult
  | 0, session, cache, now => ⟨session, cache, now, []⟩
  | n + 1, session, cache, now =>
    let r := run_cycle oracle args session cache now
    let rest := run_cycles oracle args n r.session r.cache r.clock
    ⟨rest.session, rest.cache, rest.clock, r.processed.toList ++ rest.processed_log⟩

/-- Modelled from the spec: the dashboard page that invokes
`display_insights` for the Health Outcomes tab (index 3) is not under
`src/`; per the spec's Health Outcomes special case that page passes a topic
name containing "Oral Health" (the parent oral topic), which is what arms the
sub-topic block of insights_utils.py lines 279-393. -/
def health_tab_topic_name : String := "Oral Health"

/-- The sidebar trigger expression
`generate_button = st.button("Generate Insights") and api_key`
(vaping_dashboard.py line 935), as its Python truthiness: true exactly when
the button was clicked and the credential is non-empty. -/
def generate_button (button_clicked : Bool) (api_key : String) : Bool :=
  button_clicked && !(api_key == "")

/-- Modelled from the spec: the trigger handler that starts a run is not
under `src/` (the dashboard there only wires the button to the legacy
single-panel path); per the spec it resets all 8 topics to `waiting`, clears
`completed_set`, sets `current_processing_index = 0` and
`in_progress = true`. -/
def trigger_reset (s : SessionState) : SessionState :=
  { s with
      progress_status := ((List.range tab_names.length).map
        (fun i => ((i : Int), "waiting"))),
      completed_tabs := [],
      current_processing_tab := 0,
      insights_in_progress := true }

/-- The operator trigger: gated by `generate_button`; the returned flag is
whether a UI refresh cycle was forced. -/
def trigger_run (button_clicked : Bool) (s : SessionState) :
    SessionState × Bool :=
  if generate_button button_clicked s.openai_api_key then (trigger_reset s, true)
  else (s, false)

/-! ## Theorems -/

/-- Claim C10: calling `display_insights` with an empty matching-documents
list returns before the progress logic runs — for every session state,
including an active run whose current processing tab equals the given tab
index — leaving the session state (completed tabs, current processing tab,
progress status, in-progress flag, stored results), the cache and the clock
unchanged, making no generation call and processing no tab. -/
theorem display_insights_empty_docs_frame (oracle : Oracle) (df : DataFrame)
    (topic_name : String) (categories_to_extract : Schema)
    (custom_focus_prompt : Option String) (enable_throttling : Bool)
    (tab_index : Int) (session : SessionState) (cache : Cache) (now : ℚ) :
    display_insights oracle df [] topic_name categories_to_extract
      custom_focus_prompt enable_throttling tab_index session cache now =
      ⟨session, cache, now, [], [], none⟩ := rfl

/-- Claim C6 counterexample: parsing `"• A\n• B\ncontinuation\n• C"` yields
3 bullets, but the second is `"• B continuation"`, not `"B continuation"`:
the leading glyph of a bullet line is retained, not stripped (line 185 of
insights_utils.py only rewrites interior `" • "` occurrences). -/
theorem parse_bullets_glyph_retained :
    (parse_bullet_points "• A\n• B\ncontinuation\n• C").length = 3 ∧
    (parse_bullet_points "• A\n• B\ncontinuation\n• C")[1]? ≠
      some "B continuation" := by decide

/-- Claim C6 as amended: parsing `"• A\n• B\ncontinuation\n• C"` yields
exactly the bullets `"• A"`, `"• B continuation"`, `"• C"` — a trimmed line
starting with the glyph opens a new bullet with the glyph retained and
interior `" • "` occurrences collapsed to `": "`, and a non-empty non-bullet
line is appended space-joined to the preceding bullet with stray glyphs
stripped. -/
theorem parse_bullets_continuation_merge :
    parse_bullet_points "• A\n• B\ncontinuation\n• C" =
      ["• A", "• B continuation", "• C"] := by decide

/-- Claim C9: the insight client never propagates an exception: whenever the
completion call raises (the oracle reports an exception message), the client
returns exactly the single error bullet
`"Error generating <topic> insights: <message>"` with the zero usage
record. -/
theorem client_recovers_exceptions (oracle : Oracle) (insights_data : Bundle)
    (api_key topic_name : String) (custom_focus_prompt : Option String)
    (e : String) (hne : insights_data ≠ [])
    (herr : oracle insights_data api_key topic_name custom_focus_prompt =
      .error e) :
    generate_insights_with_gpt4o oracle insights_data api_key topic_name
      custom_focus_prompt =
      (["Error generating " ++ pyLower topic_name ++ " insights: " ++ e],
        zero_usage) := by
  simp [generate_insights_with_gpt4o, hne, herr]

/-- A failing oracle for the C9 witness. -/
def failing_oracle : Oracle := fun _ _ _ _ => .error "boom"

/-- Claim C9 witness: the recovery theorem applied at a concrete non-empty
bundle and a failing endpoint. -/
theorem client_recovers_exceptions_witness :
    ([("d", [("G", [("a", ["v"])])])] : Bundle) ≠ [] ∧
    generate_insights_with_gpt4o failing_oracle
      [("d", [("G", [("a", ["v"])])])] "key" "Adverse Events" none =
      (["Error generating " ++ pyLower "Adverse Events" ++
        " insights: " ++ "boom"], zero_usage) :=
  ⟨by decide,
    client_recovers_exceptions failing_oracle _ "key" "Adverse Events" none
      "boom" (by decide) rfl⟩

section CacheLemmas

/-- Filtering out an element that is present strictly shortens a list. -/
lemma length_filter_lt_of_mem {α : Type} {l : List α} {a : α} {p : α → Bool}
    (ha : a ∈ l) (hpa : p a = false) : (l.filter p).length < l.length := by
  induction l with
  | nil => cases ha
  | cons x xs ih =>
    rcases List.mem_cons.1 ha with rfl | hxs
    · simp only [List.filter_cons, hpa]
      exact Nat.lt_succ_of_le (List.length_filter_le p xs)
    · simp only [List.filter_cons]
      cases hx : p x
      · exact Nat.lt_succ_of_lt (ih hxs)
      · simpa using Nat.succ_lt_succ (ih hxs)

/-- A hit keeps the cache within its length. -/
lemma lru_touch_length_le {entries : Cache} {k : CacheKey} {v : GenResult}
    (h : lru_lookup entries k = some v) :
    (lru_touch entries k v).length ≤ entries.length := by
  obtain ⟨p, hfind⟩ : ∃ p, entries.find? (fun p => p.1 == k) = some p := by
    unfold lru_lookup at h
    cases hf : entries.find? (fun p => p.1 == k) with
    | none => rw [hf] at h; cases h
    | some p => exact ⟨p, rfl⟩
  have hmem : p ∈ entries := List.mem_of_find?_eq_some hfind
  have hpk := List.find?_some hfind
  simp only [] at hpk
  have : (entries.filter (fun q => !(q.1 == k))).length < entries.length :=
    length_filter_lt_of_mem hmem (by simp [hpk])
  simpa [lru_touch] using Nat.succ_le_of_lt this

end CacheLemmas

/-- Claim C4: the memoisation of `cached_generate_insights`.  For any
underlying computation `f` and 4-tuple key `k`: (i) two successive calls with
identical arguments starting from an empty cache perform exactly one
underlying invocation and both return `f k`; (ii) a key differing in at least
one of the four components misses and forces a fresh invocation; (iii) from
any cache within capacity the cache stays within 32 live entries, and a miss
on a full cache evicts exactly the least recently used entry. -/
theorem cached_generate_insights_memoizes (f : CacheKey → GenResult)
    (k k' : CacheKey) (entries : Cache) (hk : k' ≠ k)
    (hlen : entries.length ≤ lru_maxsize) :
    ((cached_generate_insights f [] k).2.2 +
      (cached_generate_insights f (cached_generate_insights f [] k).2.1 k).2.2
        = 1 ∧
      (cached_generate_insights f [] k).1 = f k ∧
      (cached_generate_insights f
        (cached_generate_insights f [] k).2.1 k).1 = f k) ∧
    (cached_generate_insights f
      (cached_generate_insights f [] k).2.1 k').2.2 = 1 ∧
    ((cached_generate_insights f entries k).2.1.length ≤ lru_maxsize ∧
      (entries.length = lru_maxsize → lru_lookup entries k = none →
        (cached_generate_insights f entries k).2.1 =
          (k, f k) :: entries.dropLast)) := by
  have hfirst : cached_generate_insights f [] k =
      (f k, [(k, f k)], 1) := by
    simp [cached_generate_insights, lru_lookup, lru_insert, lru_maxsize]
  refine ⟨⟨?_, ?_, ?_⟩, ?_, ?_, ?_⟩
  · rw [hfirst]
    simp [cached_generate_insights, lru_lookup, lru_touch]
  · rw [hfirst]
  · rw [hfirst]
    simp [cached_generate_insights, lru_lookup]
  · rw [hfirst]
    have hkk : (k == k') = false := by
      simp only [beq_eq_false_iff_ne]
      exact Ne.symm hk
    simp [cached_generate_insights, lru_lookup, List.find?, hkk]
  · unfold cached_generate_insights
    cases hl : lru_lookup entries k with
    | some v => simpa using Nat.le_trans (lru_touch_length_le hl) hlen
    | none =>
      simp only [lru_insert, List.length_cons]
      split
      · have h32 : entries.length = lru_maxsize := Nat.le_antisymm hlen (by assumption)
        have hne : entries ≠ [] := by
          intro h0; rw [h0] at h32; simp [lru_maxsize] at h32
        rw [List.length_dropLast, h32]
        simp [lru_maxsize]
      · omega
  · intro hfull hmiss
    simp [cached_generate_insights, hmiss, lru_insert, hfull]

/-- Concrete key for the cache witness. -/
def c4_key : CacheKey := ⟨"\x7b\x7d", "key-a", "Overview", none⟩

/-- Concrete changed-credential key for the cache witness. -/
def c4_key' : CacheKey := ⟨"\x7b\x7d", "key-b", "Overview", none⟩

/-- Concrete underlying computation for the cache witness. -/
def c4_fun : CacheKey → GenResult := fun _ => (["• x"], ⟨1, 2, 3⟩)

/-- Claim C4 witness: the memoisation theorem applied at concrete keys
differing only in the credential component, from the empty cache. -/
theorem cached_generate_insights_memoizes_witness :
    (cached_generate_insights c4_fun [] c4_key).2.2 +
      (cached_generate_insights c4_fun
        (cached_generate_insights c4_fun [] c4_key).2.1 c4_key).2.2 = 1 ∧
    (cached_generate_insights c4_fun
      (cached_generate_insights c4_fun [] c4_key).2.1 c4_key').2.2 = 1 :=
  ⟨(cached_generate_insights_memoizes c4_fun c4_key c4_key' []
      (by decide) (by decide)).1.1,
    (cached_generate_insights_memoizes c4_fun c4_key c4_key' []
      (by decide) (by decide)).2.1⟩

section ExtractInvariants

/-- The property C7 (as amended) asserts of every stored attribute value
list: non-empty with at least one non-blank entry. -/
def attr_ok (l : List String) : Prop := l ≠ [] ∧ ∃ x ∈ l, pyStrip x ≠ ""

/-- Insertion via `dict_insert` preserves a property of all stored values. -/
lemma dict_insert_forall {κ ν : Type} [BEq κ] {P : ν → Prop}
    {l : List (κ × ν)} {k : κ} {v : ν}
    (hl : ∀ p ∈ l, P p.2) (hv : P v) : ∀ p ∈ dict_insert l k v, P p.2 := by
  intro p hp
  unfold dict_insert at hp
  split at hp
  · obtain ⟨q, hq, hqe⟩ := List.mem_map.1 hp
    by_cases h : (q.1 == k) = true
    · rw [if_pos h] at hqe; rw [← hqe]; exact hv
    · rw [if_neg h] at hqe; rw [← hqe]; exact hl _ hq
  · rcases List.mem_append.1 hp with h | h
    · exact hl _ h
    · simp only [List.mem_singleton] at h; rw [h]; exact hv

/-- Every attribute list collected by the inner loop is non-empty and has a
non-blank entry (the guard of insights_utils.py line 67). -/
lemma category_insights_for_ok (df : DataFrame) (doc_col : String)
    (subs : List String) (acc : AttrMap) (hacc : ∀ p ∈ acc, attr_ok p.2) :
    ∀ p ∈ category_insights_for df doc_col subs acc, attr_ok p.2 := by
  induction subs generalizing acc with
  | nil => exact hacc
  | cons s rest ih =>
    simp only [category_insights_for]
    apply ih
    split
    · split
      · rename_i hrows hdata
        apply dict_insert_forall hacc
        refine ⟨hdata.1, ?_⟩
        obtain ⟨x, hx, hxs⟩ := List.any_eq_true.1 hdata.2
        exact ⟨x, hx, of_decide_eq_true hxs⟩
      · exact hacc
    · exact hacc

/-- Every group stored by the middle loop is a non-empty attribute map all
of whose values satisfy `attr_ok` (the guard of insights_utils.py line 71). -/
lemma doc_insights_for_ok (df : DataFrame) (doc_col : String)
    (cats : Schema) (acc : GroupMap)
    (hacc : ∀ p ∈ acc, p.2 ≠ [] ∧ ∀ q ∈ p.2, attr_ok q.2) :
    ∀ p ∈ doc_insights_for df doc_col cats acc,
      p.2 ≠ [] ∧ ∀ q ∈ p.2, attr_ok q.2 := by
  induction cats generalizing acc with
  | nil => exact hacc
  | cons c rest ih =>
    simp only [doc_insights_for]
    apply ih
    split
    · rename_i hne
      exact dict_insert_forall
        (P := fun ci => ci ≠ [] ∧ ∀ q ∈ ci, attr_ok q.2) hacc
        ⟨hne, category_insights_for_ok df doc_col c.2 [] (by simp)⟩
    · exact hacc

/-- Every document stored by the outer loop is a non-empty group map whose
groups are non-empty and whose attribute lists satisfy `attr_ok` (the guard
of insights_utils.py line 75). -/
lemma extract_docs_loop_ok (df : DataFrame) (cats : Schema)
    (docs : List String) (acc : Bundle)
    (hacc : ∀ p ∈ acc, p.2 ≠ [] ∧
      ∀ q ∈ p.2, q.2 ≠ [] ∧ ∀ a ∈ q.2, attr_ok a.2) :
    ∀ p ∈ extract_docs_loop df cats docs acc, p.2 ≠ [] ∧
      ∀ q ∈ p.2, q.2 ≠ [] ∧ ∀ a ∈ q.2, attr_ok a.2 := by
  induction docs generalizing acc with
  | nil => exact hacc
  | cons d rest ih =>
    simp only [extract_docs_loop]
    apply ih
    split
    · rename_i hne
      exact dict_insert_forall
        (P := fun g => g ≠ [] ∧ ∀ q ∈ g, q.2 ≠ [] ∧ ∀ a ∈ q.2, attr_ok a.2)
        hacc ⟨hne, doc_insights_for_ok df d cats [] (by simp)⟩
    · exact hacc

end ExtractInvariants

/-- Claim C8: for all tables, document sets and schemas, the extractor never
maps a document key to an empty mapping nor a group key within a document to
an empty mapping: a document key is present only with at least one group,
and a group key only with at least one attribute. -/
theorem extract_no_empty_leaves (df : DataFrame) (matching_docs : List String)
    (categories_to_extract : Schema) (d : String) (g : GroupMap)
    (hmem : (d, g) ∈ extract_research_insights_from_docs df matching_docs
      categories_to_extract) :
    g ≠ [] ∧ ∀ q ∈ g, q.2 ≠ [] := by
  have h := extract_docs_loop_ok df categories_to_extract matching_docs []
    (by simp) (d, g) hmem
  exact ⟨h.1, fun q hq => (h.2 q hq).1⟩

/-- Claim C8 witness: the no-empty-leaves invariant applied to the concrete
two-row table. -/
theorem extract_no_empty_leaves_witness :
    ([("Key Findings", [("main_conclusions", ["", "x"])])] : GroupMap) ≠ [] ∧
    ∀ q ∈ ([("Key Findings", [("main_conclusions", ["", "x"])])] : GroupMap),
      q.2 ≠ [] :=
  extract_no_empty_leaves exampleDf ["DocA"]
    [("Key Findings", ["main_conclusions"])] "DocA"
    [("Key Findings", [("main_conclusions", ["", "x"])])] (by decide)

/-- Claim C7 counterexample: the extractor only drops NaN entries
(`dropna()`, insights_utils.py line 65); blank strings survive alongside a
non-blank one.  On a table whose `main_conclusions` rows hold the cells `""`
and `"x"` for `DocA`, the stored value list is `["", "x"]`, which contains
an empty string — refuting "contains no empty or whitespace-only strings". -/
theorem extract_keeps_blank_strings :
    extract_research_insights_from_docs exampleDf ["DocA"]
      [("Key Findings", ["main_conclusions"])] =
      [("DocA", [("Key Findings", [("main_conclusions", ["", "x"])])])] ∧
    "" ∈ ["", "x"] ∧ pyStrip "" = "" := by decide

/-- Claim C7 as amended: every stored attribute value list is NaN-free by
construction (it is the `dropna()` image of the matched cells), non-empty,
and contains at least one non-blank entry; if dropping NaN leaves no value,
or only blank values, the attribute key is omitted — but blank strings may
remain in a stored list next to a non-blank one. -/
theorem extract_attr_lists_have_content (df : DataFrame)
    (matching_docs : List String) (categories_to_extract : Schema)
    (d : String) (g : GroupMap) (mc : String) (ci : AttrMap) (sub : String)
    (l : List String)
    (hd : (d, g) ∈ extract_research_insights_from_docs df matching_docs
      categories_to_extract)
    (hg : (mc, ci) ∈ g) (hl : (sub, l) ∈ ci) :
    l ≠ [] ∧ ∃ x ∈ l, pyStrip x ≠ "" := by
  have h := extract_docs_loop_ok df categories_to_extract matching_docs []
    (by simp) (d, g) hd
  exact (h.2 (mc, ci) hg).2 (sub, l) hl

/-- Claim C7 (amended) witness: the attribute-list property applied to the
concrete two-row table, whose stored list is `["", "x"]`. -/
theorem extract_attr_lists_have_content_witness :
    (["", "x"] : List String) ≠ [] ∧ ∃ x ∈ ["", "x"], pyStrip x ≠ "" :=
  extract_attr_lists_have_content exampleDf ["DocA"]
    [("Key Findings", ["main_conclusions"])] "DocA"
    [("Key Findings", [("main_conclusions", ["", "x"])])]
    "Key Findings" [("main_conclusions", ["", "x"])] "main_conclusions"
    ["", "x"] (by decide) (by decide) (by decide)

section ControllerLemmas

/-- What one processing cycle does to the controller fields: mark the tab
completed and advance (or finish after the last tab).  Stated for
`run_cycle`, which calls `display_insights` at the then-current processing
tab. -/
lemma run_cycle_step (oracle : Oracle) (args : Int → CycleArgs)
    (session : SessionState) (cache : Cache) (now : ℚ) (k : Int)
    (hk : session.current_processing_tab = k)
    (hdocs : (args k).matching_docs ≠ [])
    (hip : session.insights_in_progress = true)
    (hnot : k ∉ session.completed_tabs) :
    (run_cycle oracle args session cache now).processed = some k ∧
    (run_cycle oracle args session cache now).session.completed_tabs =
      set_add session.completed_tabs k ∧
    (run_cycle oracle args session cache now).session.current_processing_tab =
      (if k < 7 then k + 1 else -1) ∧
    (run_cycle oracle args session cache now).session.insights_in_progress =
      (if k < 7 then true else false) := by
  have h7 : (tab_names.length : Int) - 1 = 7 := by decide
  subst hk
  simp only [run_cycle, display_insights]
  rw [if_neg hdocs, if_pos ⟨hip, trivial, hnot⟩]
  refine ⟨rfl, rfl, ?_, ?_⟩
  · simp only [h7]
  · simp only [h7, hip]

end ControllerLemmas

/-- Claim C1: from a run state with `insights_in_progress = true`,
`current_processing_tab = 0` and no completed tabs, eight successive
reactive cycles — each calling `display_insights` once at the then-current
tab index, with documents available and no error — process the topic
indices in exact ascending order `0,…,7`, each exactly once (the guard of
insights_utils.py lines 245-247 never reprocesses a completed index), and
end with `insights_in_progress = false`, `current_processing_tab = -1` and
the completed set `{0,…,7}`. -/
theorem controller_run_visits_in_order (oracle : Oracle)
    (args : Int → CycleArgs) (st : SessionState) (cache : Cache) (now : ℚ)
    (hdocs : ∀ i : Int, (args i).matching_docs ≠ [])
    (hip : st.insights_in_progress = true)
    (hcpt : st.current_processing_tab = 0)
    (hcomp : st.completed_tabs = []) :
    (run_cycles oracle args 8 st cache now).processed_log =
      [0, 1, 2, 3, 4, 5, 6, 7] ∧
    (run_cycles oracle args 8 st cache now).session.insights_in_progress
      = false ∧
    (run_cycles oracle args 8 st cache now).session.current_processing_tab
      = -1 ∧
    (run_cycles oracle args 8 st cache now).session.completed_tabs =
      [0, 1, 2, 3, 4, 5, 6, 7] := by
  set r0 := run_cycle oracle args st cache now with hr0
  obtain ⟨p0, c0, t0, i0⟩ :=
    run_cycle_step oracle args st cache now 0 hcpt (hdocs 0) hip
      (by rw [hcomp]; simp)
  have hcc0 : r0.session.completed_tabs = [0] := by rw [c0, hcomp]; decide
  set r1 := run_cycle oracle args r0.session r0.cache r0.clock with hr1
  obtain ⟨p1, c1, t1, i1⟩ :=
    run_cycle_step oracle args r0.session r0.cache r0.clock 1
      (by rw [t0]; decide) (hdocs 1) (by rw [i0]; decide)
      (by rw [hcc0]; decide)
  have hcc1 : r1.session.completed_tabs = [0, 1] := by
    rw [c1, hcc0]; decide
  set r2 := run_cycle oracle args r1.session r1.cache r1.clock with hr2
  obtain ⟨p2, c2, t2, i2⟩ :=
    run_cycle_step oracle args r1.session r1.cache r1.clock 2
      (by rw [t1]; decide) (hdocs 2) (by rw [i1]; decide)
      (by rw [hcc1]; decide)
  have hcc2 : r2.session.completed_tabs = [0, 1, 2] := by
    rw [c2, hcc1]; decide
  set r3 := run_cycle oracle args r2.session r2.cache r2.clock with hr3
  obtain ⟨p3, c3, t3, i3⟩ :=
    run_cycle_step oracle args r2.session r2.cache r2.clock 3
      (by rw [t2]; decide) (hdocs 3) (by rw [i2]; decide)
      (by rw [hcc2]; decide)
  have hcc3 : r3.session.completed_tabs = [0, 1, 2, 3] := by
    rw [c3, hcc2]; decide
  set r4 := run_cycle oracle args r3.session r3.cache r3.clock with hr4
  obtain ⟨p4, c4, t4, i4⟩ :=
    run_cycle_step oracle args r3.session r3.cache r3.clock 4
      (by rw [t3]; decide) (hdocs 4) (by rw [i3]; decide)
      (by rw [hcc3]; decide)
  have hcc4 : r4.session.completed_tabs = [0, 1, 2, 3, 4] := by
    rw [c4, hcc3]; decide
  set r5 := run_cycle oracle args r4.session r4.cache r4.clock with hr5
  obtain ⟨p5, c5, t5, i5⟩ :=
    run_cycle_step oracle args r4.session r4.cache r4.clock 5
      (by rw [t4]; decide) (hdocs 5) (by rw [i4]; decide)
      (by rw [hcc4]; decide)
  have hcc5 : r5.session.completed_tabs = [0, 1, 2, 3, 4, 5] := by
    rw [c5, hcc4]; decide
  set r6 := run_cycle oracle args r5.session r5.cache r5.clock with hr6
  obtain ⟨p6, c6, t6, i6⟩ :=
    run_cycle_step oracle args r5.session r5.cache r5.clock 6
      (by rw [t5]; decide) (hdocs 6) (by rw [i5]; decide)
      (by rw [hcc5]; decide)
  have hcc6 : r6.session.completed_tabs = [0, 1, 2, 3, 4, 5, 6] := by
    rw [c6, hcc5]; decide
  set r7 := run_cycle oracle args r6.session r6.cache r6.clock with hr7
  obtain ⟨p7, c7, t7, i7⟩ :=
    run_cycle_step oracle args r6.session r6.cache r6.clock 7
      (by rw [t6]; decide) (hdocs 7) (by rw [i6]; decide)
      (by rw [hcc6]; decide)
  have hcc7 : r7.session.completed_tabs = [0, 1, 2, 3, 4, 5, 6, 7] := by
    rw [c7, hcc6]; decide
  have hlog : (run_cycles oracle args 8 st cache now).processed_log =
      r0.processed.toList ++ (r1.processed.toList ++ (r2.processed.toList ++
      (r3.processed.toList ++ (r4.processed.toList ++ (r5.processed.toList ++
      (r6.processed.toList ++ (r7.processed.toList ++ []))))))) := rfl
  have hses : (run_cycles oracle args 8 st cache now).session =
      r7.session := rfl
  refine ⟨?_, ?_, ?_, ?_⟩
  · rw [hlog, p0, p1, p2, p3, p4, p5, p6, p7]; rfl
  · rw [hses, i7]; decide
  · rw [hses, t7]; decide
  · rw [hses, hcc7]

/-- A well-behaved endpoint for witnesses: always responds with one bullet. -/
def ok_oracle : Oracle := fun _ _ _ _ => .ok ("• X", ⟨1, 1, 2⟩)

/-- Constant per-tab arguments for the run witnesses. -/
def demo_args : Int → CycleArgs := fun _ =>
  ⟨exampleDf, ["DocA"], "Overview", [("Key Findings", ["main_conclusions"])],
    none, false⟩

/-- A fresh run state: credential set, run armed at tab 0. -/
def demo_state : SessionState :=
  { openai_api_key := "key", insights_in_progress := true,
    current_processing_tab := 0, completed_tabs := [], progress_status := [],
    current_tab_index := 0, store := [], usage_store := [],
    last_api_call := none }

/-- Claim C1 witness: the ordering theorem applied to a concrete armed run
with documents available on every tab. -/
theorem controller_run_visits_in_order_witness :
    (run_cycles ok_oracle demo_args 8 demo_state [] 0).processed_log =
      [0, 1, 2, 3, 4, 5, 6, 7] ∧
    (run_cycles ok_oracle demo_args 8 demo_state [] 0).session.insights_in_progress
      = false ∧
    (run_cycles ok_oracle demo_args 8 demo_state [] 0).session.current_processing_tab
      = -1 ∧
    (run_cycles ok_oracle demo_args 8 demo_state [] 0).session.completed_tabs =
      [0, 1, 2, 3, 4, 5, 6, 7] :=
  controller_run_visits_in_order ok_oracle demo_args demo_state [] 0
    (fun _ => by simp [demo_args]) rfl rfl rfl

section DictLemmas

/-- Rewriting the in-place-overwrite map does not change lookups of a
different key. -/
lemma find?_map_overwrite_ne {κ ν : Type} [BEq κ] [LawfulBEq κ]
    (l : List (κ × ν)) (k k' : κ) (v : ν) (hk : (k == k') = false) :
    List.find? (fun p => p.1 == k')
      (l.map (fun p => if p.1 == k then (k, v) else p)) =
      List.find? (fun p => p.1 == k') l := by
  induction l with
  | nil => rfl
  | cons p rest ih =>
    by_cases hp : (p.1 == k) = true
    · have hp1 : p.1 = k := eq_of_beq hp
      simp only [List.map_cons, if_pos hp, List.find?_cons]
      rw [hp1]
      cases hkk : (k == k') with
      | true => rw [hkk] at hk; cases hk
      | false => simpa [hkk] using ih
    · simp only [List.map_cons, if_neg hp, List.find?_cons]
      cases hpk : (p.1 == k') with
      | true => rfl
      | false => simpa [hpk] using ih

/-- Looking up the overwritten key in the in-place-overwrite map finds the
new value, provided the key was present. -/
lemma find?_map_overwrite_hit {κ ν : Type} [BEq κ] [LawfulBEq κ]
    (l : List (κ × ν)) (k : κ) (v : ν)
    (hany : l.any (fun p => p.1 == k) = true) :
    List.find? (fun p => p.1 == k)
      (l.map (fun p => if p.1 == k then (k, v) else p)) = some (k, v) := by
  induction l with
  | nil => cases hany
  | cons p rest ih =>
    by_cases hp : (p.1 == k) = true
    · simp only [List.map_cons, if_pos hp, List.find?_cons]
      simp
    · simp only [List.any_cons, hp, Bool.false_or] at hany
      simp only [List.map_cons, if_neg hp, List.find?_cons]
      cases hpk : (p.1 == k) with
      | true => cases hp hpk
      | false => simpa [hpk] using ih hany

/-- Lookup via `dict_get` after `dict_insert` of the same key yields the new value. -/
lemma dict_get_insert_self {κ ν : Type} [BEq κ] [LawfulBEq κ]
    (l : List (κ × ν)) (k : κ) (v : ν) :
    dict_get (dict_insert l k v) k = some v := by
  unfold dict_insert dict_get
  split
  · rename_i hany
    rw [find?_map_overwrite_hit l k v hany]
    rfl
  · rename_i hany
    rw [List.find?_append]
    have hnone : List.find? (fun p => p.1 == k) l = none := by
      rw [List.find?_eq_none]
      intro x hx
      rw [Bool.not_eq_true]
      rcases hall : (x.1 == k) with _ | _
      · rfl
      · exact absurd (List.any_eq_true.2 ⟨x, hx, hall⟩) hany
    rw [hnone]
    simp [List.find?]

/-- Lookup via `dict_get` after `dict_insert` of a different key is unchanged. -/
lemma dict_get_insert_ne {κ ν : Type} [BEq κ] [LawfulBEq κ]
    (l : List (κ × ν)) (k k' : κ) (v : ν) (h : k' ≠ k) :
    dict_get (dict_insert l k v) k' = dict_get l k' := by
  have hk : (k == k') = false := by
    rw [beq_eq_false_iff_ne]
    exact Ne.symm h
  unfold dict_insert dict_get
  split
  · rw [find?_map_overwrite_ne l k k' v hk]
  · rw [List.find?_append]
    have : List.find? (fun p => p.1 == k') [(k, v)] = none := by
      simp [List.find?, hk]
    rw [this]
    cases List.find? (fun p => p.1 == k') l <;> rfl

end DictLemmas

/-- Claim C2: whenever the controller completes the Health Outcomes topic
(index 3), three result sets — the parent topic's (stored both under its
topic key and the oral-health key), a respiratory-health set and a
cardiovascular-health set — are stored with their own usage records within
that same cycle; the `gen_log` shows the parent's generation first with the
two sub-topic generations consecutively after it, and the same cycle's
resulting state has already advanced to index 4, so the sub-topic work
precedes the advance.  The topic name containing "Oral Health" is the
spec-modelled argument of the Health Outcomes page (`health_tab_topic_name`),
whose caller is not under `src/`. -/
theorem health_tab_stores_three_result_sets (oracle : Oracle) (df : DataFrame)
    (matching_docs : List String) (topic_name : String) (cats : Schema)
    (focus : Option String) (throttle : Bool) (session : SessionState)
    (cache : Cache) (now : ℚ)
    (hdocs : matching_docs ≠ [])
    (hip : session.insights_in_progress = true)
    (htab : session.current_processing_tab = 3)
    (hnot : (3 : Int) ∉ session.completed_tabs)
    (horal : strContains topic_name "Oral Health" = true) :
    dict_get (display_insights oracle df matching_docs topic_name cats focus
        throttle 3 session cache now).session.store
      "generated_oral_health_insights" ≠ none ∧
    dict_get (display_insights oracle df matching_docs topic_name cats focus
        throttle 3 session cache now).session.usage_store
      "generated_oral_health_insights_token_usage" ≠ none ∧
    dict_get (display_insights oracle df matching_docs topic_name cats focus
        throttle 3 session cache now).session.store
      "generated_respiratory_health_insights" ≠ none ∧
    dict_get (display_insights oracle df matching_docs topic_name cats focus
        throttle 3 session cache now).session.usage_store
      "generated_respiratory_health_insights_token_usage" ≠ none ∧
    dict_get (display_insights oracle df matching_docs topic_name cats focus
        throttle 3 session cache now).session.store
      "generated_cardiovascular_health_insights" ≠ none ∧
    dict_get (display_insights oracle df matching_docs topic_name cats focus
        throttle 3 session cache now).session.usage_store
      "generated_cardiovascular_health_insights_token_usage" ≠ none ∧
    (display_insights oracle df matching_docs topic_name cats focus throttle 3
        session cache now).gen_log =
      [insights_store_key topic_name, "generated_oral_health_insights",
        "generated_respiratory_health_insights",
        "generated_cardiovascular_health_insights"] ∧
    (display_insights oracle df matching_docs topic_name cats focus throttle 3
        session cache now).session.current_processing_tab = 4 := by
  simp only [display_insights]
  rw [if_neg hdocs, if_pos ⟨hip, htab.symm, hnot⟩]
  have hhealth : (((3 : Int) == 3) && strContains topic_name "Oral Health")
      = true := by rw [horal]; rfl
  rw [if_pos hhealth]
  refine ⟨?_, ?_, ?_, ?_, ?_, ?_, rfl, by norm_num [tab_names]⟩
  · rw [dict_get_insert_ne _ _ _ _ (by decide),
      dict_get_insert_ne _ _ _ _ (by decide),
      dict_get_insert_self]
    simp
  · rw [dict_get_insert_ne _ _ _ _ (by decide),
      dict_get_insert_ne _ _ _ _ (by decide),
      dict_get_insert_self]
    simp
  · rw [dict_get_insert_ne _ _ _ _ (by decide), dict_get_insert_self]
    simp
  · rw [dict_get_insert_ne _ _ _ _ (by decide), dict_get_insert_self]
    simp
  · rw [dict_get_insert_self]
    simp
  · rw [dict_get_insert_self]
    simp

/-- A run state paused at the Health Outcomes tab. -/
def health_state : SessionState :=
  { demo_state with current_processing_tab := 3 }

/-- Claim C2 witness: the Health Outcomes theorem applied to a concrete
armed run at tab 3 with the spec-modelled oral topic name. -/
theorem health_tab_stores_three_result_sets_witness :
    (display_insights ok_oracle exampleDf ["DocA"] health_tab_topic_name
        [("Key Findings", ["main_conclusions"])] none false 3 health_state []
        0).gen_log =
      [insights_store_key health_tab_topic_name,
        "generated_oral_health_insights",
        "generated_respiratory_health_insights",
        "generated_cardiovascular_health_insights"] ∧
    (display_insights ok_oracle exampleDf ["DocA"] health_tab_topic_name
        [("Key Findings", ["main_conclusions"])] none false 3 health_state []
        0).session.current_processing_tab = 4 :=
  ⟨(health_tab_stores_three_result_sets ok_oracle exampleDf ["DocA"]
      health_tab_topic_name [("Key Findings", ["main_conclusions"])] none
      false health_state [] 0 (by decide) rfl rfl (by decide)
      (by decide)).2.2.2.2.2.2.1,
    (health_tab_stores_three_result_sets ok_oracle exampleDf ["DocA"]
      health_tab_topic_name [("Key Findings", ["main_conclusions"])] none
      false health_state [] 0 (by decide) rfl rfl (by decide)
      (by decide)).2.2.2.2.2.2.2⟩

section ThrottleLemmas

/-- With the throttle enabled and a previous call on record, the main
generation step's call time is at least one second after `last_api_call`
(lines 260-264 sleep exactly the remainder). -/
lemma insights_gen_step_clock_ge (oracle : Oracle) (res : Bundle)
    (key topic : String) (focus : Option String) (cache : Cache) (now l : ℚ)
    (hres : res ≠ []) :
    l + 1 ≤ (insights_gen_step oracle res key topic focus true cache now
      (some l)).clock := by
  unfold insights_gen_step
  rw [if_neg hres]
  simp only []
  by_cases h : now - l < 1
  · rw [if_pos h]; linarith
  · rw [if_neg h]; linarith

/-- Every call event of the main generation step happens at the step's
clock value. -/
lemma insights_gen_step_events_time (oracle : Oracle) (res : Bundle)
    (key topic : String) (focus : Option String) (enable : Bool)
    (cache : Cache) (now : ℚ) (last : Option ℚ) :
    ∀ e ∈ (insights_gen_step oracle res key topic focus enable cache now
      last).events,
      e.time = (insights_gen_step oracle res key topic focus enable cache now
        last).clock := by
  unfold insights_gen_step
  split
  · intro e he; cases he
  · intro e he
    simp only [List.mem_singleton] at he
    rw [he]

/-- With the throttle disabled the main generation step introduces no
delay: its clock stays at `now`. -/
lemma insights_gen_step_clock_unthrottled (oracle : Oracle) (res : Bundle)
    (key topic : String) (focus : Option String) (cache : Cache) (now : ℚ)
    (last : Option ℚ) :
    (insights_gen_step oracle res key topic focus false cache now
      last).clock = now := by
  unfold insights_gen_step
  split
  · rfl
  · simp

/-- Every call event of a health sub-topic step happens at the handed-down
time `t` — the sub-topic calls are never throttled. -/
lemma health_sub_step_events_time (oracle : Oracle) (sub : Bundle)
    (key topic fp msg : String) (cache : Cache) (t : ℚ) :
    ∀ e ∈ (health_sub_step oracle sub key topic fp msg cache t).events,
      e.time = t := by
  unfold health_sub_step
  split
  · intro e he
    simp only [List.mem_singleton] at he
    rw [he]
  · intro e he; cases he

end ThrottleLemmas

/-- Propositional form of the throttle bound: with throttling enabled and a
previous call on record every call event of a cycle starts at least 1 second
after `last_api_call`; with throttling disabled every call event starts at
the cycle's start time. -/
lemma throttle_events_bound (oracle : Oracle) (df : DataFrame)
    (docs : List String) (topic : String) (cats : Schema)
    (focus : Option String) (tab : Int) (session : SessionState)
    (cache : Cache) (now : ℚ) :
    (∀ l : ℚ, session.last_api_call = some l →
      extract_research_insights_from_docs df docs cats ≠ [] →
      ∀ e ∈ (display_insights oracle df docs topic cats focus true tab
        session cache now).events, l + 1 ≤ e.time) ∧
    (∀ e ∈ (display_insights oracle df docs topic cats focus false tab
      session cache now).events, e.time = now) := by
  constructor
  · intro l hl hres e he
    simp only [display_insights] at he
    split at he
    · cases he
    · split at he
      · simp only [] at he
        rw [List.mem_append] at he
        rw [hl] at he
        rcases he with hg | hh
        · rw [insights_gen_step_events_time _ _ _ _ _ _ _ _ _ e hg]
          exact insights_gen_step_clock_ge oracle _ _ _ _ _ _ _ hres
        · split at hh
          · rw [List.mem_append] at hh
            rcases hh with hr | hc
            · rw [health_sub_step_events_time _ _ _ _ _ _ _ _ e hr]
              exact insights_gen_step_clock_ge oracle _ _ _ _ _ _ _ hres
            · rw [health_sub_step_events_time _ _ _ _ _ _ _ _ e hc]
              exact insights_gen_step_clock_ge oracle _ _ _ _ _ _ _ hres
          · cases hh
      · cases he
  · intro e he
    simp only [display_insights] at he
    split at he
    · cases he
    · split at he
      · simp only [] at he
        rw [List.mem_append] at he
        rcases he with hg | hh
        · rw [insights_gen_step_events_time _ _ _ _ _ _ _ _ _ e hg]
          exact insights_gen_step_clock_unthrottled _ _ _ _ _ _ _ _
        · split at hh
          · rw [List.mem_append] at hh
            rcases hh with hr | hc
            · rw [health_sub_step_events_time _ _ _ _ _ _ _ _ e hr]
              exact insights_gen_step_clock_unthrottled _ _ _ _ _ _ _ _
            · rw [health_sub_step_events_time _ _ _ _ _ _ _ _ e hc]
              exact insights_gen_step_clock_unthrottled _ _ _ _ _ _ _ _
          · cases hh
      · cases he

/-- Claim C3 as amended: with throttling enabled and a previous call on
record, the controller sleeps before the cycle's top-level generation so
that every generation call of the cycle starts at least 1 second after
`last_api_call`; with throttling disabled no artificial delay is introduced
(every call of the cycle starts at the cycle's start time).  The amendment
the counterexample forces: the 1-second spacing is enforced only against the
previous cycle's `last_api_call` — the Health Outcomes sub-topic calls are
issued at the parent call's completion time with no further sleep, so two
back-to-back LLM calls within such a cycle are not separated by 1 second. -/
theorem throttle_spaces_cycles_only (oracle : Oracle) (df : DataFrame)
    (docs : List String) (topic : String) (cats : Schema)
    (focus : Option String) (tab : Int) (session : SessionState)
    (cache : Cache) (now : ℚ) :
    (∀ l : ℚ, session.last_api_call = some l →
      extract_research_insights_from_docs df docs cats ≠ [] →
      ((display_insights oracle df docs topic cats focus true tab session
        cache now).events.all (fun e => l + 1 ≤ e.time)) = true) ∧
    ((display_insights oracle df docs topic cats focus false tab session
      cache now).events.all (fun e => e.time == now)) = true := by
  constructor
  · intro l hl hres
    rw [List.all_eq_true]
    intro e he
    rw [decide_eq_true_eq]
    exact (throttle_events_bound oracle df docs topic cats focus tab session
      cache now).1 l hl hres e he
  · rw [List.all_eq_true]
    intro e he
    rw [beq_iff_eq]
    exact (throttle_events_bound oracle df docs topic cats focus tab session
      cache now).2 e he

/-- A run state whose previous LLM call is on record at time 2. -/
def throttled_state : SessionState :=
  { demo_state with last_api_call := some 2 }

/-- Claim C3 (amended) witness: the spacing theorem applied to a concrete
armed cycle whose `last_api_call` is 2 — every call of the cycle starts at
or after 3. -/
theorem throttle_spaces_cycles_only_witness :
    ((display_insights ok_oracle exampleDf ["DocA"] "Overview"
      [("Key Findings", ["main_conclusions"])] none true 0 throttled_state []
      0).events.all (fun e => (2 : ℚ) + 1 ≤ e.time)) = true :=
  (throttle_spaces_cycles_only ok_oracle exampleDf ["DocA"] "Overview"
    [("Key Findings", ["main_conclusions"])] none 0 throttled_state [] 0).1
    2 rfl (by decide)

/-- Claim C3 counterexample: with throttling enabled, a Health Outcomes
cycle issues three LLM calls (all cache misses reaching the network) at one
and the same instant — the two sub-topic calls follow the parent
back-to-back with zero separation, refuting "every two LLM calls issued
back-to-back through the client are separated by at least 1 second". -/
theorem throttle_not_applied_to_subtopic_calls :
    ∃ t : ℚ,
      ((display_insights ok_oracle exampleDf ["DocA"] "Oral Health"
        [("Key Findings", ["main_conclusions"])] none true 3 health_state []
        0).events.map CallEvent.is_llm_call = [true, true, true]) ∧
      ((display_insights ok_oracle exampleDf ["DocA"] "Oral Health"
        [("Key Findings", ["main_conclusions"])] none true 3 health_state []
        0).events.map CallEvent.time = [t, t, t]) ∧
      t - t < 1 :=
  ⟨0 + 0, by decide, rfl, by norm_num⟩

/-- Claim C5: the trigger requires a non-empty credential — with an empty
credential the action is inert (state unchanged, no refresh, no run); when
it fires with a credential present it resets all 8 topics to `waiting`,
clears the completed set, sets `current_processing_index = 0` and
`in_progress = true`, and forces a UI refresh cycle.  The credential gate is
`generate_button` (vaping_dashboard.py line 935); the reset body is
spec-modelled (`trigger_reset`), its page not being under `src/`. -/
theorem trigger_gated_and_resets (s : SessionState) (clicked : Bool) :
    (s.openai_api_key = "" → trigger_run clicked s = (s, false)) ∧
    (s.openai_api_key ≠ "" →
      (trigger_run true s).2 = true ∧
      (trigger_run true s).1.insights_in_progress = true ∧
      (trigger_run true s).1.current_processing_tab = 0 ∧
      (trigger_run true s).1.completed_tabs = [] ∧
      (trigger_run true s).1.progress_status =
        [(0, "waiting"), (1, "waiting"), (2, "waiting"), (3, "waiting"),
          (4, "waiting"), (5, "waiting"), (6, "waiting"), (7, "waiting")]) := by
  constructor
  · intro hkey
    unfold trigger_run generate_button
    rw [hkey]
    simp
  · intro hkey
    unfold trigger_run generate_button
    have hgate : (true && !(s.openai_api_key == "")) = true := by
      simp [hkey]
    rw [if_pos hgate]
    refine ⟨rfl, rfl, rfl, rfl, ?_⟩
    show (List.range tab_names.length).map (fun i => ((i : Int), "waiting")) =
      _
    decide

/-- Claim C5 witness: the trigger theorem applied to a credential-less state
(inert) and to a credentialed state (armed run with refresh). -/
theorem trigger_gated_and_resets_witness :
    trigger_run true { demo_state with openai_api_key := "" } =
      ({ demo_state with openai_api_key := "" }, false) ∧
    (trigger_run true demo_state).2 = true ∧
    (trigger_run true demo_state).1.current_processing_tab = 0 :=
  ⟨(trigger_gated_and_resets { demo_state with openai_api_key := "" }
      true).1 rfl,
    ((trigger_gated_and_resets demo_state true).2 (by decide)).1,
    ((trigger_gated_and_resets demo_state true).2 (by decide)).2.2.1⟩
